import Mathlib

/-!
Verification of `all4dich/rbp-control-i2c-multiplexer` (Go).

The program selects a channel of a TCA9548A I2C multiplexer, then polls an
INA260 power monitor behind that channel, converting raw 16-bit registers
into volts, amperes and watts, and publishing them as labeled gauges.

The embedding below follows `src/main.go` (the authoritative variant) and,
where the labeled-gauge features are concerned, the labeled variants
`src/unnamed/part_000` / `src/unnamed/part_001`, which share all logic with
`main.go` except for argument handling and the device label.

Floating-point `float64` arithmetic of the source is modelled in exact
rational arithmetic (`ℚ`): every constant involved (1.25, 10.0, the raw
integer values) is exactly representable, and the claims under scrutiny
either hold exactly or allow a tolerance (±1e-9) far above the rounding
error of the actual double-precision evaluation.
-/

namespace Ina260Mux

/-- INA260 register addresses, from the constant block of `main.go`. -/
def ina260RegCurrent : Nat := 0x01

/-- Bus-voltage register address. -/
def ina260RegBusVoltage : Nat := 0x02

/-- Power register address. -/
def ina260RegPower : Nat := 0x03

/-- Manufacturer-ID register address. -/
def ina260RegManufID : Nat := 0xFE

/-- Device-ID register address. -/
def ina260RegDeviceID : Nat := 0xFF

/-- Fixed INA260 device address (`ina260Address = uint16(0x40)`). -/
def ina260Address : Nat := 0x40

/-- Scaling factor for the bus-voltage register, mV/LSB (`voltageLSB = 1.25`). -/
def voltageLSB : ℚ := 5 / 4

/-- Scaling factor for the current register, mA/LSB (`currentLSB = 1.25`). -/
def currentLSB : ℚ := 5 / 4

/-- Scaling factor for the power register, mW/LSB (`powerLSB = 10.0`). -/
def powerLSB : ℚ := 10

/-- Go's `int16(x)` reinterpretation of a `uint16` value: two's-complement
on 16 bits. -/
def signed16 (x : Nat) : Int :=
  if x % 65536 < 32768 then (x % 65536 : Int) else (x % 65536 : Int) - 65536

/-- Current conversion, `main.go` line 183:
`current := float64(int16(rawCurrent)) * currentLSB / 1000.0`. -/
def currentOfRaw (raw : Nat) : ℚ := (signed16 raw : ℚ) * currentLSB / 1000

/-- Voltage conversion, `main.go` line 194:
`voltage := float64(rawVoltage) * voltageLSB / 1000.0`. -/
def voltageOfRaw (raw : Nat) : ℚ := (raw : ℚ) * voltageLSB / 1000

/-- Power conversion, `main.go` line 204:
`power := float64(rawPower) * powerLSB / 1000.0`. -/
def powerOfRaw (raw : Nat) : ℚ := (raw : ℚ) * powerLSB / 1000

/-- C1: the current conversion first reinterprets the raw 16-bit register as
a two's-complement signed integer, then scales by 1.25/1000; raw 0xFFFF
decodes to −0.00125 A and raw 0x0001 to +0.00125 A, both within ±1e-9. -/
theorem current_conversion_signed :
    (∀ raw : Nat, currentOfRaw raw = (signed16 raw : ℚ) * (5 / 4) / 1000) ∧
    |currentOfRaw 0xFFFF - (-(125 / 100000 : ℚ))| ≤ 1 / 1000000000 ∧
    |currentOfRaw 0x0001 - (125 / 100000 : ℚ)| ≤ 1 / 1000000000 := by
  refine ⟨fun raw => rfl, ?_, ?_⟩ <;>
    norm_num [currentOfRaw, signed16, currentLSB]

/-- C8: for every raw value, voltage is `raw * 1.25 / 1000` volts and power
is `raw * 10 / 1000` watts, both with unsigned interpretation, so power is
always non-negative; raw 0x0190 gives exactly 0.5 V and raw 0x0064 exactly
1.0 W. -/
theorem voltage_power_conversion :
    (∀ raw : Nat,
        voltageOfRaw raw = (raw : ℚ) * (5 / 4) / 1000 ∧
        powerOfRaw raw = (raw : ℚ) * 10 / 1000 ∧
        0 ≤ powerOfRaw raw) ∧
    voltageOfRaw 0x0190 = 1 / 2 ∧ powerOfRaw 0x0064 = 1 := by
  refine ⟨fun raw => ⟨rfl, rfl, ?_⟩, ?_, ?_⟩
  · unfold powerOfRaw powerLSB
    positivity
  · norm_num [voltageOfRaw, voltageLSB]
  · norm_num [powerOfRaw, powerLSB]

/-- One I2C transaction as issued by periph's `dev.Tx(w, r)`: the target
address, the bytes written, and the number of bytes read back. -/
structure I2CTx where
  addr : Nat
  writeBytes : List Nat
  readLen : Nat
deriving Repr, DecidableEq

/-- Channel validation and selection, `main.go` lines 124–137 (identical in
`getDevice` of `part_000`, lines 94–107): if `channelInt` is outside [0,7]
the program dies (`log.Fatalf`) before any transaction; otherwise it sends
the single byte `byte(1 << channel)` to the multiplexer, reading nothing.
The result is the list of bus transactions issued, paired with the outcome. -/
def selectChannel (tcaAddress : Nat) (channelInt : Int) :
    List I2CTx × Except String Unit :=
  if channelInt < 0 ∨ 7 < channelInt then
    ([], .error "channel number must be between 0 and 7")
  else
    ([⟨tcaAddress, [Nat.shiftLeft 1 channelInt.toNat % 256], 0⟩], .ok ())

/-- C2: for every channel index in [0,7], channel selection is exactly one
write-only transaction to the multiplexer address whose payload is the
single byte `1 << c` — no register-address byte precedes the mask. -/
theorem selectChannel_valid (a : Nat) (c : Int) (h0 : 0 ≤ c) (h7 : c ≤ 7) :
    selectChannel a c = ([⟨a, [Nat.shiftLeft 1 c.toNat], 0⟩], .ok ()) ∧
    (selectChannel a c).1.length = 1 ∧
    (selectChannel a c).1.map (fun tx => tx.writeBytes) =
      [[Nat.shiftLeft 1 c.toNat]] ∧
    Nat.shiftLeft 1 c.toNat < 256 := by
  have hc7 : c.toNat ≤ 7 := by omega
  have hlt : Nat.shiftLeft 1 c.toNat < 256 := by
    show 1 <<< c.toNat < 256
    rw [Nat.shiftLeft_eq, one_mul]
    calc 2 ^ c.toNat ≤ 2 ^ 7 := Nat.pow_le_pow_right (by norm_num) hc7
    _ < 256 := by norm_num
  have hsel : selectChannel a c =
      ([⟨a, [Nat.shiftLeft 1 c.toNat], 0⟩], .ok ()) := by
    unfold selectChannel
    rw [if_neg (by omega), Nat.mod_eq_of_lt hlt]
  exact ⟨hsel, by rw [hsel]; rfl, by rw [hsel]; rfl, hlt⟩

/-- Witness for `selectChannel_valid` at multiplexer 0x70, channel 3. -/
theorem selectChannel_valid_witness :
    selectChannel 0x70 3 = ([⟨0x70, [8], 0⟩], .ok ()) ∧
    (selectChannel 0x70 3).1.length = 1 ∧
    (selectChannel 0x70 3).1.map (fun tx => tx.writeBytes) = [[8]] ∧
    Nat.shiftLeft 1 (3 : Int).toNat < 256 :=
  selectChannel_valid 0x70 3 (by norm_num) (by norm_num)

/-- C3: for every channel index outside [0,7], channel selection fails with
a configuration error and issues zero bus transactions. -/
theorem selectChannel_invalid (a : Nat) (c : Int) (h : c < 0 ∨ 7 < c) :
    (selectChannel a c).1 = [] ∧
    ∃ e, (selectChannel a c).2 = .error e := by
  unfold selectChannel
  rw [if_pos h]
  exact ⟨rfl, _, rfl⟩

/-- Witness for `selectChannel_invalid` at channel −1. -/
theorem selectChannel_invalid_witness :
    (selectChannel 0x70 (-1)).1 = [] ∧
    ∃ e, (selectChannel 0x70 (-1)).2 = .error e :=
  selectChannel_invalid 0x70 (-1) (Or.inl (by norm_num))

/-- Register read, `readINA260Reg` of `main.go` lines 75–85.  The device is
modelled as a map from register address to either an error or the two bytes
the transaction reads back.  On transaction failure the function returns
`(0, err)`; on success it returns the big-endian 16-bit value
`buf[0]*256 + buf[1]` (the `% 256` record that the buffer holds bytes). -/
def readINA260Reg (dev : Nat → Except String (Nat × Nat)) (reg : Nat) :
    Nat × Option String :=
  match dev reg with
  | .error e => (0, some e)
  | .ok (b0, b1) => ((b0 % 256) * 256 + b1 % 256, none)

/-- C9: on a failed bus transaction `readINA260Reg` returns exactly `(0, err)`
— the register value on the error path is always 0; on success it returns
`buf[0]*256 + buf[1]` with no error. -/
theorem readINA260Reg_spec (dev : Nat → Except String (Nat × Nat)) (reg : Nat) :
    (∀ e, dev reg = .error e → readINA260Reg dev reg = (0, some e)) ∧
    (∀ b0 b1, dev reg = .ok (b0, b1) → b0 < 256 → b1 < 256 →
      readINA260Reg dev reg = (b0 * 256 + b1, none)) := by
  constructor
  · intro e he
    unfold readINA260Reg
    rw [he]
  · intro b0 b1 hok h0 h1
    unfold readINA260Reg
    rw [hok]
    simp [Nat.mod_eq_of_lt h0, Nat.mod_eq_of_lt h1]

/-- Witness for `readINA260Reg_spec`: a failing device yields `(0, err)`, a
device answering bytes (0x01, 0x90) yields `(0x0190, none)`. -/
theorem readINA260Reg_spec_witness :
    readINA260Reg (fun _ => .error "io") ina260RegCurrent = (0, some "io") ∧
    readINA260Reg (fun _ => .ok (0x01, 0x90)) ina260RegBusVoltage =
      (0x0190, none) :=
  ⟨(readINA260Reg_spec (fun _ => .error "io") ina260RegCurrent).1 "io" rfl,
   (readINA260Reg_spec (fun _ => .ok (0x01, 0x90)) ina260RegBusVoltage).2
     0x01 0x90 rfl (by norm_num) (by norm_num)⟩

/-- One converted measurement triple: amperes, volts, watts. -/
structure Measurement where
  current : ℚ
  voltage : ℚ
  power : ℚ
deriving Repr, DecidableEq

/-- Observable events of one iteration of the polling loop: a register read
attempt, a publication of a full measurement to the gauges, or the fixed
`time.Sleep(1 * time.Second)` delay. -/
inductive Event where
  | read (reg : Nat)
  | publish (m : Measurement)
  | sleep (seconds : Nat)
deriving Repr, DecidableEq

/-- The measurement assembled by one iteration of the polling loop
(`main.go` lines 171–205): current, bus voltage and power are read in that
fixed order, and any failing read aborts the whole measurement — `none`
means no (partial or total) `Measurement` exists for the cycle. -/
def cycleMeasurement (dev : Nat → Except String (Nat × Nat)) :
    Option Measurement :=
  if (readINA260Reg dev ina260RegCurrent).2.isSome then none
  else if (readINA260Reg dev ina260RegBusVoltage).2.isSome then none
  else if (readINA260Reg dev ina260RegPower).2.isSome then none
  else some
    { current := currentOfRaw (readINA260Reg dev ina260RegCurrent).1
      voltage := voltageOfRaw (readINA260Reg dev ina260RegBusVoltage).1
      power := powerOfRaw (readINA260Reg dev ina260RegPower).1 }

/-- The full event trace of one iteration of the polling loop
(`main.go` lines 171–213): each failing read skips the rest of the body
(`continue`) after the one-second sleep; a fully successful iteration
publishes the measurement and then sleeps. -/
def cycleTrace (dev : Nat → Except String (Nat × Nat)) : List Event :=
  if (readINA260Reg dev ina260RegCurrent).2.isSome then
    [.read ina260RegCurrent, .sleep 1]
  else if (readINA260Reg dev ina260RegBusVoltage).2.isSome then
    [.read ina260RegCurrent, .read ina260RegBusVoltage, .sleep 1]
  else if (readINA260Reg dev ina260RegPower).2.isSome then
    [.read ina260RegCurrent, .read ina260RegBusVoltage, .read ina260RegPower,
     .sleep 1]
  else
    [.read ina260RegCurrent, .read ina260RegBusVoltage, .read ina260RegPower,
     .publish
       { current := currentOfRaw (readINA260Reg dev ina260RegCurrent).1
         voltage := voltageOfRaw (readINA260Reg dev ina260RegBusVoltage).1
         power := powerOfRaw (readINA260Reg dev ina260RegPower).1 },
     .sleep 1]

/-- Trace of the first `n` iterations of the unbounded polling loop.  The
device behaviour may change over time, so iteration `i` reads from the
oracle `devs i`. -/
def loopTrace (devs : Nat → Nat → Except String (Nat × Nat)) : Nat → List Event
  | 0 => []
  | n + 1 => loopTrace devs n ++ cycleTrace (devs n)

/-- Every event of a cycle is a read of one of the three measurement
registers, a publish, or the one-second sleep. -/
theorem cycleTrace_shape (dev : Nat → Except String (Nat × Nat)) :
    ∀ e ∈ cycleTrace dev,
      e = .read ina260RegCurrent ∨ e = .read ina260RegBusVoltage ∨
      e = .read ina260RegPower ∨ (∃ m, e = .publish m) ∨ e = .sleep 1 := by
  intro e he
  unfold cycleTrace at he
  split_ifs at he <;>
    simp only [List.mem_cons, List.not_mem_nil, or_false] at he
  · rcases he with rfl | rfl <;> tauto
  · rcases he with rfl | rfl | rfl <;> tauto
  · rcases he with rfl | rfl | rfl | rfl <;> tauto
  · rcases he with rfl | rfl | rfl | rfl | rfl
    · tauto
    · tauto
    · tauto
    · exact Or.inr (Or.inr (Or.inr (Or.inl ⟨_, rfl⟩)))
    · tauto

/-- A cycle's trace always ends with the fixed one-second sleep. -/
theorem cycleTrace_getLast (dev : Nat → Except String (Nat × Nat)) :
    (cycleTrace dev).getLast? = some (.sleep 1) := by
  unfold cycleTrace
  split_ifs <;> rfl

/-- C4: if any of the three register reads of a cycle fails, that cycle
produces no (partial) measurement and publishes nothing, yet still performs
the fixed delay and starts with the current-register read; and the loop
trace over `n` cycles is exactly the concatenation of `n` independent cycle
traces, each computed afresh from that cycle's device state — failed cycles
are retried indefinitely with no retry ceiling. -/
theorem polling_failure_isolation (devs : Nat → Nat → Except String (Nat × Nat))
    (n : Nat) (dev : Nat → Except String (Nat × Nat))
    (hfail : (readINA260Reg dev ina260RegCurrent).2.isSome = true ∨
      (readINA260Reg dev ina260RegBusVoltage).2.isSome = true ∨
      (readINA260Reg dev ina260RegPower).2.isSome = true) :
    cycleMeasurement dev = none ∧
    (∀ m, Event.publish m ∉ cycleTrace dev) ∧
    (cycleTrace dev).getLast? = some (.sleep 1) ∧
    (cycleTrace dev).head? = some (.read ina260RegCurrent) ∧
    loopTrace devs n = (List.range n).flatMap (fun i => cycleTrace (devs i)) := by
  refine ⟨?_, ?_, cycleTrace_getLast dev, ?_, ?_⟩
  · unfold cycleMeasurement
    split_ifs with h1 h2 h3
    · rfl
    · rfl
    · rfl
    · rcases hfail with h | h | h <;> simp_all
  · intro m hm
    unfold cycleTrace at hm
    split_ifs at hm with h1 h2 h3
    · simp at hm
    · simp at hm
    · simp at hm
    · rcases hfail with h | h | h <;> simp_all
  · unfold cycleTrace
    split_ifs <;> rfl
  · induction n with
    | zero => rfl
    | succ k ih =>
        rw [loopTrace, ih, List.range_succ, List.flatMap_append]
        simp [List.flatMap]

/-- Witness for `polling_failure_isolation`: a device whose transactions all
fail, over two loop iterations. -/
theorem polling_failure_isolation_witness :
    cycleMeasurement (fun _ => .error "io") = none ∧
    (∀ m, Event.publish m ∉ cycleTrace (fun _ => .error "io")) ∧
    (cycleTrace (fun _ => .error "io")).getLast? = some (.sleep 1) ∧
    (cycleTrace (fun _ => .error "io")).head? =
      some (.read ina260RegCurrent) ∧
    loopTrace (fun _ _ => .error "io") 2 =
      (List.range 2).flatMap (fun _ => cycleTrace (fun _ => .error "io")) :=
  polling_failure_isolation (fun _ _ => .error "io") 2 (fun _ => .error "io")
    (Or.inl rfl)

/-- Identity verification, `main.go` lines 146–157: the manufacturer-ID and
device-ID registers are read (a failing read is fatal, `log.Fatalf`); a
mismatch against 0x5449/0x2260 only prints a warning.  The result is
`.ok warn` where `warn` records whether the warning was printed. -/
def identityCheck (dev : Nat → Except String (Nat × Nat)) :
    Except String Bool :=
  match (readINA260Reg dev ina260RegManufID).2 with
  | some e => .error e
  | none =>
    match (readINA260Reg dev ina260RegDeviceID).2 with
    | some e => .error e
    | none =>
      .ok (decide ((readINA260Reg dev ina260RegManufID).1 ≠ 0x5449 ∨
        (readINA260Reg dev ina260RegDeviceID).1 ≠ 0x2260))

/-- Behaviour of the program after channel selection: the one-time identity
check, then (unless the check's reads died) the polling loop.  `none` means
the process exited during setup; otherwise the result carries whether the
identity warning was printed and the loop's trace. -/
def programTrace (dev : Nat → Except String (Nat × Nat))
    (devs : Nat → Nat → Except String (Nat × Nat)) (n : Nat) :
    Option (Bool × List Event) :=
  match identityCheck dev with
  | .error _ => none
  | .ok warn => some (warn, loopTrace devs n)

/-- C7: a device-identity mismatch (manufacturer ≠ 0x5449 or device ≠
0x2260) only raises the warning flag: the program still runs the polling
loop, whose trace is exactly the same as with matching identity, and the
identity registers 0xFE/0xFF are never read again inside the loop. -/
theorem identity_mismatch_advisory (dev : Nat → Except String (Nat × Nat))
    (devs : Nat → Nat → Except String (Nat × Nat)) (n : Nat)
    (m0 m1 d0 d1 : Nat)
    (hm : dev ina260RegManufID = .ok (m0, m1))
    (hd : dev ina260RegDeviceID = .ok (d0, d1))
    (hmis : (m0 % 256) * 256 + m1 % 256 ≠ 0x5449 ∨
      (d0 % 256) * 256 + d1 % 256 ≠ 0x2260) :
    identityCheck dev = .ok true ∧
    programTrace dev devs n = some (true, loopTrace devs n) ∧
    (∀ e ∈ loopTrace devs n,
      e ≠ .read ina260RegManufID ∧ e ≠ .read ina260RegDeviceID) := by
  have hrm : readINA260Reg dev ina260RegManufID =
      ((m0 % 256) * 256 + m1 % 256, none) := by
    unfold readINA260Reg
    rw [hm]
  have hrd : readINA260Reg dev ina260RegDeviceID =
      ((d0 % 256) * 256 + d1 % 256, none) := by
    unfold readINA260Reg
    rw [hd]
  have hid : identityCheck dev = .ok true := by
    unfold identityCheck
    rw [hrm, hrd]
    simp only [decide_eq_true_eq]
    rw [decide_eq_true (by exact hmis)]
  refine ⟨hid, by unfold programTrace; rw [hid], ?_⟩
  intro e he
  have hloop : ∀ k, ∀ e ∈ loopTrace devs k,
      e ≠ Event.read ina260RegManufID ∧ e ≠ Event.read ina260RegDeviceID := by
    intro k
    induction k with
    | zero => intro e he; simp [loopTrace] at he
    | succ j ih =>
        intro e he
        rw [loopTrace, List.mem_append] at he
        rcases he with h | h
        · exact ih e h
        · rcases cycleTrace_shape (devs j) e h with
            h' | h' | h' | ⟨m, h'⟩ | h' <;> subst h' <;>
            constructor <;> intro hbad <;>
            simp [ina260RegCurrent, ina260RegBusVoltage, ina260RegPower,
              ina260RegManufID, ina260RegDeviceID] at hbad
  exact hloop n e he

/-- Witness for `identity_mismatch_advisory`: a device answering wrong
identity bytes (0, 0) for both registers, over one loop iteration. -/
theorem identity_mismatch_advisory_witness :
    identityCheck (fun _ => .ok (0, 0)) = .ok true ∧
    programTrace (fun _ => .ok (0, 0)) (fun _ _ => .ok (0, 0)) 1 =
      some (true, loopTrace (fun _ _ => .ok (0, 0)) 1) ∧
    (∀ e ∈ loopTrace (fun _ _ => .ok (0, 0)) 1,
      e ≠ .read ina260RegManufID ∧ e ≠ .read ina260RegDeviceID) :=
  identity_mismatch_advisory (fun _ => .ok (0, 0)) (fun _ _ => .ok (0, 0)) 1
    0 0 0 0 rfl rfl (Or.inl (by norm_num))

/-- Uppercase hexadecimal rendering of a natural number, as Go's
`fmt.Sprintf("%X", n)` produces. -/
def toHexUpper (n : Nat) : String :=
  ((Nat.toDigits 16 n).map Char.toUpper).asString

/-- Device label, `part_001` line 135:
`fmt.Sprintf("tca9548a_0x%X_ch%d_ina260", tcaAddress, ina260Channel)`. -/
def deviceLabel (tcaAddress : Nat) (channel : Nat) : String :=
  "tca9548a_0x" ++ toHexUpper tcaAddress ++ "_ch" ++ toString channel ++
    "_ina260"

/-- One labeled gauge sample handed to the metrics sink. -/
structure Sample where
  gaugeName : String
  hostname : String
  device : String
  value : ℚ
deriving Repr, DecidableEq

/-- The three samples a successful cycle publishes, `part_001` lines
202–204: gauges `ina260_current`, `ina260_voltage`, `ina260_power`, each
labeled with the hostname and the device label. -/
def samplesOfMeasurement (hostname device : String) (m : Measurement) :
    List Sample :=
  [⟨"ina260_current", hostname, device, m.current⟩,
   ⟨"ina260_voltage", hostname, device, m.voltage⟩,
   ⟨"ina260_power", hostname, device, m.power⟩]

/-- Counterexample to C5 as stated: the device label synthesized for
multiplexer address 0x70, channel 3 is not `tca0x70_ch3_ina260` — the code
produces `tca9548a_0x70_ch3_ina260`. -/
theorem deviceLabel_counterexample :
    deviceLabel 0x70 3 ≠ "tca0x70_ch3_ina260" ∧
    deviceLabel 0x70 3 = "tca9548a_0x70_ch3_ina260" ∧
    (samplesOfMeasurement "pi" (deviceLabel 0x70 3) ⟨1 / 50, 1 / 2, 1⟩).map
        (fun s => s.gaugeName) ≠ ["current", "voltage", "power"] := by
  refine ⟨by decide, rfl, by decide⟩

/-- C5 (amended): with multiplexer 0x70 and channel 3, raw readings
current = 0x0010, voltage = 0x0190, power = 0x0064 select the channel with
the single byte 8, assemble the measurement 0.02 A / 0.5 V / 1.0 W, and
publish it as gauges `ina260_current`, `ina260_voltage`, `ina260_power`
under device label `tca9548a_0x70_ch3_ina260`. -/
theorem end_to_end_amended (hostname : String)
    (dev : Nat → Except String (Nat × Nat))
    (hc : dev ina260RegCurrent = .ok (0x00, 0x10))
    (hv : dev ina260RegBusVoltage = .ok (0x01, 0x90))
    (hp : dev ina260RegPower = .ok (0x00, 0x64)) :
    selectChannel 0x70 3 = ([⟨0x70, [8], 0⟩], .ok ()) ∧
    cycleMeasurement dev = some ⟨1 / 50, 1 / 2, 1⟩ ∧
    Event.publish ⟨1 / 50, 1 / 2, 1⟩ ∈ cycleTrace dev ∧
    samplesOfMeasurement hostname (deviceLabel 0x70 3) ⟨1 / 50, 1 / 2, 1⟩ =
      [⟨"ina260_current", hostname, "tca9548a_0x70_ch3_ina260", 1 / 50⟩,
       ⟨"ina260_voltage", hostname, "tca9548a_0x70_ch3_ina260", 1 / 2⟩,
       ⟨"ina260_power", hostname, "tca9548a_0x70_ch3_ina260", 1⟩] := by
  have hrc : readINA260Reg dev ina260RegCurrent = (0x0010, none) := by
    unfold readINA260Reg
    rw [hc]
  have hrv : readINA260Reg dev ina260RegBusVoltage = (0x0190, none) := by
    unfold readINA260Reg
    rw [hv]
  have hrp : readINA260Reg dev ina260RegPower = (0x0064, none) := by
    unfold readINA260Reg
    rw [hp]
  have hm : (⟨currentOfRaw 0x0010, voltageOfRaw 0x0190, powerOfRaw 0x0064⟩ :
      Measurement) = ⟨1 / 50, 1 / 2, 1⟩ := by
    norm_num [currentOfRaw, voltageOfRaw, powerOfRaw, signed16,
      currentLSB, voltageLSB, powerLSB]
  refine ⟨by rfl, ?_, ?_, rfl⟩
  · unfold cycleMeasurement
    rw [hrc, hrv, hrp]
    simpa using hm
  · unfold cycleTrace
    rw [hrc, hrv, hrp]
    simp [hm]

/-- Witness for `end_to_end_amended` with a concrete device. -/
theorem end_to_end_amended_witness :
    selectChannel 0x70 3 = ([⟨0x70, [8], 0⟩], .ok ()) ∧
    cycleMeasurement (fun reg =>
      if reg = 1 then .ok (0x00, 0x10)
      else if reg = 2 then .ok (0x01, 0x90)
      else .ok (0x00, 0x64)) = some ⟨1 / 50, 1 / 2, 1⟩ ∧
    Event.publish ⟨1 / 50, 1 / 2, 1⟩ ∈ cycleTrace (fun reg =>
      if reg = 1 then .ok (0x00, 0x10)
      else if reg = 2 then .ok (0x01, 0x90)
      else .ok (0x00, 0x64)) ∧
    samplesOfMeasurement "pi" (deviceLabel 0x70 3) ⟨1 / 50, 1 / 2, 1⟩ =
      [⟨"ina260_current", "pi", "tca9548a_0x70_ch3_ina260", 1 / 50⟩,
       ⟨"ina260_voltage", "pi", "tca9548a_0x70_ch3_ina260", 1 / 2⟩,
       ⟨"ina260_power", "pi", "tca9548a_0x70_ch3_ina260", 1⟩] :=
  end_to_end_amended "pi"
    (fun reg =>
      if reg = 1 then .ok (0x00, 0x10)
      else if reg = 2 then .ok (0x01, 0x90)
      else .ok (0x00, 0x64)) rfl rfl rfl

/-- Numeric value of a digit character, as Go's strconv accepts digits for
bases up to 36 (`0-9`, `a-z`, `A-Z`); whether the digit is legal for the
chosen base is checked separately. -/
def digitVal (c : Char) : Option Nat :=
  if '0' ≤ c ∧ c ≤ '9' then some (c.toNat - 48)
  else if 'a' ≤ c ∧ c ≤ 'z' then some (c.toNat - 87)
  else if 'A' ≤ c ∧ c ≤ 'Z' then some (c.toNat - 55)
  else none

/-- Accumulate a digit string in the given base; `none` on an empty
acceptance so far, an illegal character, or a digit not below the base. -/
def parseDigits (base : Nat) (cs : List Char) : Option Nat :=
  cs.foldl
    (fun acc c =>
      match acc, digitVal c with
      | some a, some d => if d < base then some (a * base + d) else none
      | _, _ => none)
    (some 0)

/-- Base detection of Go's `strconv.ParseUint(s, 0, …)`: a `0x`/`0X` head
means hexadecimal, `0o`/`0O` octal, `0b`/`0B` binary, a bare leading `0`
legacy octal, anything else decimal.  Returns the base and the remaining
digit characters.  (Underscore digit separators are not modelled.) -/
def splitBase : List Char → Nat × List Char
  | '0' :: 'x' :: rest => (16, rest)
  | '0' :: 'X' :: rest => (16, rest)
  | '0' :: 'o' :: rest => (8, rest)
  | '0' :: 'O' :: rest => (8, rest)
  | '0' :: 'b' :: rest => (2, rest)
  | '0' :: 'B' :: rest => (2, rest)
  | '0' :: rest => (8, '0' :: rest)
  | cs => (10, cs)

/-- Multiplexer-address parsing, `main.go` line 113:
`strconv.ParseUint(tcaAddressStr, 0, 16)` — base auto-detection and a
16-bit size limit, so any value up to 65535 is accepted; syntax errors and
values above 65535 are errors (`log.Fatalf` in the caller). -/
def parseUint16Base0 (s : String) : Except String Nat :=
  let p := splitBase s.data
  if p.2.isEmpty then .error "invalid syntax"
  else
    match parseDigits p.1 p.2 with
    | none => .error "invalid syntax"
    | some v => if v ≤ 65535 then .ok v else .error "value out of range"

/-- Startup slice from address parsing through channel selection (`main.go`
lines 113–137): a parse failure is fatal before any bus transaction;
otherwise the parsed address is used for the channel-select write. -/
def setupTrace (tcaAddressStr : String) (channelInt : Int) :
    List I2CTx × Except String Unit :=
  match parseUint16Base0 tcaAddressStr with
  | .error e => ([], .error e)
  | .ok a => selectChannel a channelInt

/-- Counterexample to C6 as stated: the input `0x1FF` parses to 511 > 127,
yet configuration is not rejected — setup proceeds all the way to a
channel-select transaction addressed to 511. -/
theorem tcaAddress_7bit_counterexample :
    parseUint16Base0 "0x1FF" = .ok 511 ∧ 127 < 511 ∧
    setupTrace "0x1FF" 0 = ([⟨511, [1], 0⟩], .ok ()) := by
  refine ⟨by rfl, by norm_num, by rfl⟩

/-- C6 (amended): the multiplexer address is parsed as an unsigned integer
of at most 16 bits — every accepted value is below 65536, not 128 — and an
input that fails to parse is fatal before any bus transaction is issued. -/
theorem tcaAddress_parse_amended :
    (∀ s v, parseUint16Base0 s = .ok v → v < 65536) ∧
    (∀ s c e, parseUint16Base0 s = .error e →
      setupTrace s c = ([], .error e)) := by
  constructor
  · intro s v h
    unfold parseUint16Base0 at h
    dsimp only at h
    split_ifs at h
    rcases hp : parseDigits (splitBase s.data).1 (splitBase s.data).2 with
      _ | w
    · rw [hp] at h
      cases h
    · rw [hp] at h
      simp only at h
      split_ifs at h with hle
      · cases h
        omega
  · intro s c e h
    unfold setupTrace
    rw [h]

/-- Witness for `tcaAddress_parse_amended`: the default input `0x70`
parses below 65536, and the unparseable input `zz` kills setup with zero
transactions. -/
theorem tcaAddress_parse_amended_witness :
    (112 : Nat) < 65536 ∧ setupTrace "zz" 3 = ([], .error "invalid syntax") :=
  ⟨tcaAddress_parse_amended.1 "0x70" 112 rfl,
   tcaAddress_parse_amended.2 "zz" 3 "invalid syntax" rfl⟩

/-- Argument handling, `main.go` lines 101–111: `os.Args` (program name
included) with fewer than three entries — i.e. fewer than two user
arguments — falls back to the defaults for BOTH the address and the
channel; with three or more, entries 1 and 2 are taken verbatim. -/
def resolveArgs (osArgs : List String) : String × String :=
  if osArgs.length < 3 then ("0x70", "0")
  else (osArgs.getD 1 "", osArgs.getD 2 "")

/-- C10: with fewer than two positional arguments both the address and the
channel fall back to `0x70` and `0` together; a single supplied argument is
ignored entirely. -/
theorem args_default_fallback (osArgs : List String)
    (h : osArgs.length < 3) :
    resolveArgs osArgs = ("0x70", "0") := by
  unfold resolveArgs
  rw [if_pos h]

/-- Witness for `args_default_fallback`: one user argument (`0x75`) after
the program name is ignored and the defaults are used. -/
theorem args_default_fallback_witness :
    resolveArgs ["prog", "0x75"] = ("0x70", "0") :=
  args_default_fallback ["prog", "0x75"] (by norm_num)

end Ina260Mux
